import Mathlib

/-!
A verification development for the dbcrossbar transfer engine fragment:
the typed argument-verification handshake (`args.rs`), the Google Cloud
Storage locator (`drivers/gs/mod.rs`), and the BigQuery table import
helpers (`drivers/bigquery_shared/table.rs`).

Data types that live outside the in-scope source files (the portable
schema, `DriverArguments`, `IfExists` and its feature check, the BigQuery
column helpers, and the external URL parser) are modelled from the
specification; each such definition says so in its doc comment.
-/

namespace Dbcrossbar

/-- Modelled from the spec: the portable logical column types
(`LogicalType`, spec section 3); the schema module is outside the in-scope
source files. -/
inductive DataType where
  | bool
  | date
  | decimal
  | float32
  | float64
  | geoJson
  | int16
  | int32
  | int64
  | json
  | text
  | timestampWithTz
  | timestampWithoutTz
  | uuid
  | arrayOf (elem : DataType)
  | structOf (fields : List (String × DataType))

/-- Modelled from the spec: a portable column
`{ name, data_type, is_nullable, comment }` (spec section 3). -/
structure Column where
  name : String
  data_type : DataType
  is_nullable : Bool
  comment : Option String

/-- Modelled from the spec: a portable table, an ordered sequence of
columns plus an optional name (spec section 3). -/
structure Table where
  name : Option String
  columns : List Column

/-- Modelled from the spec: an ordered sequence of locator URLs usable as
scratch space (spec section 3). -/
structure TemporaryStorage where
  locators : List String

/-- Modelled from the spec: a driver-specific mapping from string keys to
string values, opaque to the engine (spec section 3). -/
structure DriverArguments where
  args : List (String × String)

/-- `DriverArguments::default()`: the empty argument map. -/
def DriverArguments.default : DriverArguments :=
  { args := [] }

/-- `DriverArguments::is_empty`. -/
def DriverArguments.is_empty (d : DriverArguments) : Bool :=
  d.args.isEmpty

/-- Modelled from the spec: the `IfExists` destination policy (spec
section 3), a closed variant set; the `if_exists` module is outside the
in-scope source files. -/
inductive IfExists where
  | error
  | append
  | overwrite
  | upsert (mergeKeys : List String)

/-- The `SourceArgumentsFeatures` bitflags of `args.rs`, one `Bool` per
flag. -/
structure SourceArgumentsFeatures where
  driver_args : Bool
  where_clause : Bool
deriving DecidableEq

/-- `SourceArgumentsFeatures::empty()`. -/
def SourceArgumentsFeatures.empty : SourceArgumentsFeatures :=
  { driver_args := false, where_clause := false }

/-- The `DestinationArgumentsFeatures` bitflags of `args.rs`. -/
structure DestinationArgumentsFeatures where
  driver_args : Bool
deriving DecidableEq

/-- `DestinationArgumentsFeatures::empty()`. -/
def DestinationArgumentsFeatures.empty : DestinationArgumentsFeatures :=
  { driver_args := false }

/-- Modelled from the spec: the `IfExistsFeatures` bitflags (destination
and schema-write `IfExists` flag sets, spec section 3); the flags module
is outside the in-scope source files. -/
structure IfExistsFeatures where
  error : Bool
  append : Bool
  overwrite : Bool
  upsert : Bool
deriving DecidableEq

/-- `IfExistsFeatures::empty()`. -/
def IfExistsFeatures.empty : IfExistsFeatures :=
  { error := false, append := false, overwrite := false, upsert := false }

/-- The single-flag value `IfExistsFeatures::OVERWRITE`. -/
def IfExistsFeatures.OVERWRITE : IfExistsFeatures :=
  { error := false, append := false, overwrite := true, upsert := false }

/-- The `LocatorFeatures` bitflags (driver capability flags, spec
section 3). -/
structure LocatorFeatures where
  local_data : Bool
  write_local_data : Bool
  write_remote_data : Bool
  write_schema : Bool
deriving DecidableEq

/-- A driver's static `Features` declaration, as consumed by the `verify`
methods of `args.rs` and produced by `GsLocator::features`. -/
structure Features where
  locator : LocatorFeatures
  write_schema_if_exists : IfExistsFeatures
  source_args : SourceArgumentsFeatures
  dest_args : DestinationArgumentsFeatures
  dest_if_exists : IfExistsFeatures
deriving DecidableEq

/-- Modelled from the spec: `IfExists::verify` (outside the in-scope
source files) fails exactly when the requested policy is not in the
declared flag set, naming the unsupported policy. -/
def IfExists.verify (self : IfExists) (features : IfExistsFeatures) : Except String Unit :=
  match self with
  | .error =>
    if features.error then .ok () else .error "this driver does not support --if-exists=error"
  | .append =>
    if features.append then .ok () else .error "this driver does not support --if-exists=append"
  | .overwrite =>
    if features.overwrite then .ok () else .error "this driver does not support --if-exists=overwrite"
  | .upsert _ =>
    if features.upsert then .ok () else .error "this driver does not support --if-exists=upsert-on"

/-- `SharedArguments`: the schema and temporary storage shared by both
sides of a transfer (`args.rs` lines 35-48). The `Unverified`/`Verified`
phantom tag carries no data and is dropped in the embedding. -/
structure SharedArguments where
  schema : Table
  temporary_storage : TemporaryStorage

/-- `SharedArguments::new`. -/
def SharedArguments.new (schema : Table) (temporary_storage : TemporaryStorage) :
    SharedArguments :=
  { schema := schema, temporary_storage := temporary_storage }

/-- `SharedArguments::verify` (`args.rs` lines 66-73): no field currently
requires verification, so it always succeeds with the same fields. -/
def SharedArguments.verify (self : SharedArguments) (_features : Features) :
    Except String SharedArguments :=
  .ok { schema := self.schema, temporary_storage := self.temporary_storage }

/-- `SourceArguments`: driver args plus an optional WHERE clause
(`args.rs` lines 97-109). -/
structure SourceArguments where
  driver_args : DriverArguments
  where_clause : Option String

/-- `SourceArguments::new`. -/
def SourceArguments.new (driver_args : DriverArguments) (where_clause : Option String) :
    SourceArguments :=
  { driver_args := driver_args, where_clause := where_clause }

/-- `SourceArguments::for_temporary` (`args.rs` lines 124-126). -/
def SourceArguments.for_temporary : SourceArguments :=
  SourceArguments.new DriverArguments.default none

/-- `SourceArguments::verify` (`args.rs` lines 133-153): reject driver
args without the `DRIVER_ARGS` feature, reject a WHERE clause without the
`WHERE_CLAUSE` feature, otherwise succeed with the same fields. -/
def SourceArguments.verify (self : SourceArguments) (features : Features) :
    Except String SourceArguments :=
  if !features.source_args.driver_args && !self.driver_args.is_empty then
    .error "this data source does not support --from-args"
  else if !features.source_args.where_clause && self.where_clause.isSome then
    .error "this data source does not support --where"
  else
    .ok { driver_args := self.driver_args, where_clause := self.where_clause }

/-- `DestinationArguments`: driver args plus an `IfExists` policy
(`args.rs` lines 176-188). -/
structure DestinationArguments where
  driver_args : DriverArguments
  if_exists : IfExists

/-- `DestinationArguments::new`. -/
def DestinationArguments.new (driver_args : DriverArguments) (if_exists : IfExists) :
    DestinationArguments :=
  { driver_args := driver_args, if_exists := if_exists }

/-- `DestinationArguments::for_temporary` (`args.rs` lines 203-205). -/
def DestinationArguments.for_temporary : DestinationArguments :=
  DestinationArguments.new DriverArguments.default IfExists.overwrite

/-- `DestinationArguments::verify` (`args.rs` lines 212-228): reject
driver args without the `DRIVER_ARGS` feature, then delegate the
`if_exists` policy to `IfExists::verify` against `dest_if_exists`. -/
def DestinationArguments.verify (self : DestinationArguments) (features : Features) :
    Except String DestinationArguments :=
  if !features.dest_args.driver_args && !self.driver_args.is_empty then
    .error "this data destination does not support --to-args"
  else
    match self.if_exists.verify features.dest_if_exists with
    | .error e => .error e
    | .ok _ => .ok { driver_args := self.driver_args, if_exists := self.if_exists }

/-- `str::starts_with` of the Rust standard library, over the underlying
character sequences. -/
def strStartsWith (s p : String) : Bool :=
  List.isPrefixOf p.toList s.toList

/-- `str::ends_with` of the Rust standard library, over the underlying
character sequences. -/
def strEndsWith (s p : String) : Bool :=
  List.isSuffixOf p.toList s.toList

/-- Split a character list at the first occurrence of `c`: the part before
it, and (when `c` occurs) the part after it. -/
def splitOnFirst (c : Char) : List Char → List Char × Option (List Char)
  | [] => ([], none)
  | x :: rest =>
    if x = c then ([], some rest)
    else
      let p := splitOnFirst c rest
      (x :: p.1, p.2)

/-- A scheme character after the first: ASCII alphanumeric, `+`, `-` or
`.` (WHATWG URL standard). -/
def isSchemeChar (c : Char) : Bool :=
  c.isAlphanum || c = '+' || c = '-' || c = '.'

/-- A code point forbidden in a URL host (WHATWG URL standard), restricted
to those that can still occur once the query and fragment are split off. -/
def isForbiddenHostChar (c : Char) : Bool :=
  c = ' ' || c = '\t' || c = '\n' || c = '\r' || c = '@' || c = ':' ||
  c = '<' || c = '>' || c = '[' || c = ']' || c = '\\' || c = '^' || c = '|'

/-- Modelled from the spec: the parsed URL of the external `url` crate
(URL parsing is an out-of-scope collaborator, spec section 1): scheme,
optional authority with host, path, optional query and fragment. -/
structure Url where
  scheme : String
  hasAuthority : Bool
  host : String
  path : String
  query : Option String
  fragment : Option String
deriving DecidableEq

/-- The serialization of a parsed URL (`Display` of the `url` crate). -/
def Url.toString (u : Url) : String :=
  u.scheme ++ ":" ++ (if u.hasAuthority then "//" ++ u.host else "") ++ u.path ++
  (match u.query with | some q => "?" ++ q | none => "") ++
  (match u.fragment with | some f => "#" ++ f | none => "")

/-- Modelled from the spec: `Url::parse` of the external `url` crate for a
non-special scheme such as `gs:` (WHATWG URL standard): split the fragment
off at the first `#` and the query at the first `?`, read the scheme up to
the first `:`, then after `//` read an authority (the host runs to the
next `/`) followed by the path; with a single `/` or none, the remainder
is the path itself. -/
def Url.parse (s : String) : Except String Url :=
  let afterFragment := splitOnFirst '#' s.toList
  let afterQuery := splitOnFirst '?' afterFragment.1
  let schemeSplit := splitOnFirst ':' afterQuery.1
  match schemeSplit.2 with
  | none => .error "relative URL without a base"
  | some afterColon =>
    match schemeSplit.1 with
    | [] => .error "relative URL without a base"
    | c0 :: cs =>
      if !c0.isAlpha then .error "relative URL without a base"
      else if !cs.all isSchemeChar then .error "relative URL without a base"
      else
        let scheme := String.mk (c0 :: cs)
        let query := afterQuery.2.map String.mk
        let fragment := afterFragment.2.map String.mk
        match afterColon with
        | '/' :: '/' :: afterSlashes =>
          let hostChars := afterSlashes.takeWhile (fun c => c ≠ '/')
          let pathChars := afterSlashes.dropWhile (fun c => c ≠ '/')
          if hostChars.any isForbiddenHostChar then .error "invalid host"
          else
            .ok { scheme := scheme, hasAuthority := true, host := String.mk hostChars,
                  path := String.mk pathChars, query := query, fragment := fragment }
        | _ =>
          .ok { scheme := scheme, hasAuthority := false, host := "",
                path := String.mk afterColon, query := query, fragment := fragment }

/-- The constant `GS_SCHEME` of `drivers/gs/mod.rs`. -/
def GS_SCHEME : String := "gs:"

/-- `GsLocator` (`drivers/gs/mod.rs` lines 21-24): a locator wrapping a
`gs://` URL. -/
structure GsLocator where
  url : Url
deriving DecidableEq

/-- `GsLocator::from_str` (`drivers/gs/mod.rs` lines 42-57): require the
`gs:` scheme prefix, parse as a URL (wrapping a parse failure with a
`cannot parse` context), then require the URL path to start and to end
with `/`. -/
def GsLocator.from_str (s : String) : Except String GsLocator :=
  if strStartsWith s GS_SCHEME then
    match Url.parse s with
    | .error _ => .error ("cannot parse " ++ s)
    | .ok url =>
      if !strStartsWith url.path "/" then
        .error (url.toString ++ " must start with gs://")
      else if !strEndsWith url.path "/" then
        .error (url.toString ++ " must end with a '/'")
      else
        .ok { url := url }
  else
    .error ("expected " ++ s ++ " to begin with gs://")

/-- Modelled from the spec: a BigQuery warehouse table reference
(`bigquery:project:dataset.table`, spec section 6); the BigQuery locator
module is outside the in-scope source files. -/
structure BigQueryLocator where
  project : String
  dataset : String
  table : String
deriving DecidableEq

/-- The dynamic `Locator` values the engine can hand to
`supports_write_remote_data`, one case per driver scheme of the spec
(section 4.6); the runtime type probe `source.as_any().is::<BigQueryLocator>()`
becomes a match on this sum. -/
inductive LocatorValue where
  | gs (l : GsLocator)
  | bigquery (l : BigQueryLocator)
  | postgres (url : String)
  | csv (path : String)
  | file (path : String)

/-- `GsLocator::supports_write_remote_data` (`drivers/gs/mod.rs` lines
85-89): true exactly when the source is a `BigQueryLocator`. -/
def GsLocator.supports_write_remote_data (_self : GsLocator) (source : LocatorValue) : Bool :=
  match source with
  | .bigquery _ => true
  | _ => false

/-- `GsLocator::features` (`drivers/gs/mod.rs` lines 111-121). -/
def GsLocator.features : Features :=
  { locator := { local_data := true, write_local_data := true,
                 write_remote_data := false, write_schema := false },
    write_schema_if_exists := IfExistsFeatures.empty,
    source_args := SourceArgumentsFeatures.empty,
    dest_args := DestinationArgumentsFeatures.empty,
    dest_if_exists := IfExistsFeatures.OVERWRITE }

/-- Modelled from the spec: the per-column CSV-importability check
(`ColumnBigQueryExt::bigquery_can_import_from_csv`, outside the in-scope
source files): a column is CSV-importable unless its type requires staged
coercion, e.g. an array or struct type (spec section 4.5). -/
def Column.bigquery_can_import_from_csv (c : Column) : Except String Bool :=
  match c.data_type with
  | .arrayOf _ => .ok false
  | .structOf _ => .ok false
  | _ => .ok true

/-- The loop of `TableBigQueryExt::bigquery_can_import_from_csv`
(`drivers/bigquery_shared/table.rs` lines 18-25): propagate a column
failure, return `false` at the first non-importable column, else `true`. -/
def canImportFromCsvLoop : List Column → Except String Bool
  | [] => .ok true
  | col :: rest =>
    match col.bigquery_can_import_from_csv with
    | .error e => .error e
    | .ok b => if !b then .ok false else canImportFromCsvLoop rest

/-- `TableBigQueryExt::bigquery_can_import_from_csv` for `Table`
(`drivers/bigquery_shared/table.rs` lines 18-25). -/
def Table.bigquery_can_import_from_csv (t : Table) : Except String Bool :=
  canImportFromCsvLoop t.columns

/-- The boolean a successful per-column check returns (`false` when the
check fails). -/
def columnImportable (c : Column) : Bool :=
  match c.bigquery_can_import_from_csv with
  | .ok b => b
  | .error _ => false

/-- Modelled from the spec: a BigQuery table name
`project.dataset.table`; `TableName::dotted` joins the parts with dots
(outside the in-scope source files). -/
structure TableName where
  project : String
  dataset : String
  table : String

/-- `TableName::dotted`. -/
def TableName.dotted (n : TableName) : String :=
  n.project ++ "." ++ n.dataset ++ "." ++ n.table

/-- Modelled from the spec: `Ident`, the BigQuery identifier quoting rule
(backticks, spec sections 4.5 and 8 scenario 5; outside the in-scope
source files). -/
def Ident (s : String) : String :=
  "`" ++ s ++ "`"

/-- Modelled from the spec: a BigQuery column as `write_import_sql` uses
it (`BqColumn`, outside the in-scope source files): a column may require a
user-defined scalar function to coerce its CSV-textual form, and projects
itself through a coercion expression (spec section 4.5). -/
structure BqColumn where
  name : String
  udf : Option String
  coercion_expr : String

/-- Modelled from the spec: `BqColumn::write_import_udf` emits the UDF a
column requires, and nothing for a directly importable column. -/
def BqColumn.write_import_udf (c : BqColumn) (_idx : Nat) : String :=
  match c.udf with
  | some u => u
  | none => ""

/-- Modelled from the spec: `BqColumn::write_import_select_expr` emits the
expression that projects the column through its coercion. -/
def BqColumn.write_import_select_expr (c : BqColumn) (_idx : Nat) : String :=
  c.coercion_expr

/-- `BqTable` (`drivers/bigquery_shared/table.rs` lines 29-34). -/
structure BqTable where
  name : TableName
  columns : List BqColumn

/-- The first loop of `BqTable::write_import_sql` (`table.rs` lines
72-74): append each column's import UDF to the writer, in column order
with its enumeration index. -/
def writeUdfs (acc : String) : List BqColumn → Nat → String
  | [], _ => acc
  | c :: rest, i => writeUdfs (acc ++ c.write_import_udf i) rest (i + 1)

/-- The second loop of `BqTable::write_import_sql` (`table.rs` lines
76-81): append each column's select expression, preceded by a comma for
every index after the first. -/
def writeSelectExprs (acc : String) : List BqColumn → Nat → String
  | [], _ => acc
  | c :: rest, i =>
    writeSelectExprs ((if i > 0 then acc ++ "," else acc) ++ c.write_import_select_expr i)
      rest (i + 1)

/-- `BqTable::write_import_sql` (`table.rs` lines 71-84): the UDF loop,
then `SELECT `, the select-expression loop, and ` FROM ` with the quoted
dotted table name. -/
def BqTable.write_import_sql (t : BqTable) : String :=
  let afterUdfs := writeUdfs "" t.columns 0
  let afterSelect := writeSelectExprs (afterUdfs ++ "SELECT ") t.columns 0
  afterSelect ++ " FROM " ++ Ident t.name.dotted

/-- The concatenation of a list of strings, in order. -/
def concatAll : List String → String
  | [] => ""
  | s :: rest => s ++ concatAll rest

/-- A comma-separated rendering of a list of strings, in order. -/
def commaSeparated : List String → String
  | [] => ""
  | [s] => s
  | s :: t :: rest => s ++ "," ++ commaSeparated (t :: rest)

end Dbcrossbar

namespace Dbcrossbar

/-- C1: `SourceArguments::verify` succeeds iff (driver args empty or
`DRIVER_ARGS` declared) and (no WHERE clause or `WHERE_CLAUSE` declared);
on failure the error message names the unsupported option. -/
theorem claim_C1_source_verify (features : Features) (a : SourceArguments) :
    ((a.verify features).isOk = true ↔
      ((a.driver_args.is_empty = true ∨ features.source_args.driver_args = true) ∧
       (a.where_clause = none ∨ features.source_args.where_clause = true))) ∧
    (∀ e, a.verify features = .error e →
      (e = "this data source does not support --from-args" ∧
        features.source_args.driver_args = false ∧ a.driver_args.is_empty = false) ∨
      (e = "this data source does not support --where" ∧
        features.source_args.where_clause = false ∧ a.where_clause.isSome = true)) := by
  cases hd : features.source_args.driver_args <;>
    cases hw : features.source_args.where_clause <;>
      cases he : a.driver_args.is_empty <;>
        cases hwc : a.where_clause <;>
          simp [SourceArguments.verify, hd, hw, he, hwc, Except.isOk, Except.toBool]

/-- C2: `DestinationArguments::verify` fails with the `--to-args` message
when driver args are non-empty and `DRIVER_ARGS` is not declared in
`dest_args`; otherwise it delegates to the `IfExists`-versus-features
check against `dest_if_exists`, failing exactly when that check fails and
propagating its error. -/
theorem claim_C2_dest_verify (features : Features) (a : DestinationArguments) :
    (features.dest_args.driver_args = false ∧ a.driver_args.is_empty = false →
      a.verify features = .error "this data destination does not support --to-args") ∧
    ((features.dest_args.driver_args = true ∨ a.driver_args.is_empty = true) →
      ((a.verify features).isOk = true ↔
        (a.if_exists.verify features.dest_if_exists).isOk = true) ∧
      (∀ e, a.verify features = .error e →
        a.if_exists.verify features.dest_if_exists = .error e)) := by
  cases hd : features.dest_args.driver_args <;>
    cases he : a.driver_args.is_empty <;>
      cases hv : a.if_exists.verify features.dest_if_exists <;>
        simp [DestinationArguments.verify, hd, he, hv, Except.isOk, Except.toBool]

/-- C3: the `for_temporary` constructors produce empty driver args, no
WHERE clause, and `IfExists::Overwrite`. -/
theorem claim_C3_for_temporary :
    SourceArguments.for_temporary.driver_args.is_empty = true ∧
    SourceArguments.for_temporary.where_clause = none ∧
    DestinationArguments.for_temporary.driver_args.is_empty = true ∧
    DestinationArguments.for_temporary.if_exists = IfExists.overwrite :=
  ⟨rfl, rfl, rfl, rfl⟩

/-- C8: for each of the three bundle kinds, a successful `verify` returns
a bundle with exactly the input's field values, and re-verifying that
result against the same features succeeds again with an equal result. -/
theorem claim_C8_verify_idempotent (f : Features) :
    (∀ a b : SharedArguments, a.verify f = .ok b → b = a ∧ b.verify f = .ok b) ∧
    (∀ a b : SourceArguments, a.verify f = .ok b → b = a ∧ b.verify f = .ok b) ∧
    (∀ a b : DestinationArguments, a.verify f = .ok b → b = a ∧ b.verify f = .ok b) := by
  refine ⟨?_, ?_, ?_⟩
  · intro a b h
    cases a with
    | mk schema ts =>
      injection h with h1
      subst h1
      exact ⟨rfl, rfl⟩
  · intro a b h
    cases a with
    | mk da wc =>
      by_cases h1 : (!f.source_args.driver_args && !da.is_empty) = true
      · simp [SourceArguments.verify, h1] at h
      · by_cases h2 : (!f.source_args.where_clause && wc.isSome) = true
        · simp [SourceArguments.verify, h1, h2] at h
        · have hb : b = SourceArguments.mk da wc := by
            simpa [SourceArguments.verify, h1, h2] using h.symm
          subst hb
          exact ⟨rfl, by simp [SourceArguments.verify, h1, h2]⟩
  · intro a b h
    cases a with
    | mk da ie =>
      by_cases h1 : (!f.dest_args.driver_args && !da.is_empty) = true
      · simp [DestinationArguments.verify, h1] at h
      · cases hv : ie.verify f.dest_if_exists with
        | error e => simp [DestinationArguments.verify, h1, hv] at h
        | ok u =>
          have hb : b = DestinationArguments.mk da ie := by
            simpa [DestinationArguments.verify, h1, hv] using h.symm
          subst hb
          exact ⟨rfl, by simp [DestinationArguments.verify, h1, hv]⟩

/-- C8 witness: the idempotence theorem applied to a concrete successful
verification of each bundle kind against `GsLocator::features`. -/
theorem claim_C8_verify_idempotent_witness :
    (SharedArguments.new { name := none, columns := [] } { locators := [] } =
        SharedArguments.new { name := none, columns := [] } { locators := [] } ∧
      (SharedArguments.new { name := none, columns := [] } { locators := [] }).verify
          GsLocator.features =
        .ok (SharedArguments.new { name := none, columns := [] } { locators := [] })) ∧
    (SourceArguments.for_temporary = SourceArguments.for_temporary ∧
      SourceArguments.for_temporary.verify GsLocator.features =
        .ok SourceArguments.for_temporary) ∧
    (DestinationArguments.for_temporary = DestinationArguments.for_temporary ∧
      DestinationArguments.for_temporary.verify GsLocator.features =
        .ok DestinationArguments.for_temporary) :=
  ⟨(claim_C8_verify_idempotent GsLocator.features).1 _ _ rfl,
   (claim_C8_verify_idempotent GsLocator.features).2.1 _ _ rfl,
   (claim_C8_verify_idempotent GsLocator.features).2.2 _ _ rfl⟩

/-- C5: `GsLocator::supports_write_remote_data` is true exactly when the
source locator is a `BigQueryLocator`. -/
theorem claim_C5_supports_write_remote_data (self : GsLocator) (source : LocatorValue) :
    self.supports_write_remote_data source = true ↔
      ∃ b, source = LocatorValue.bigquery b := by
  cases source <;> simp [GsLocator.supports_write_remote_data]

/-- C9: `GsLocator::features` declares `OVERWRITE` as the only destination
`IfExists` flag and empty source and destination driver-argument features,
so destination verification against it fails for every non-`Overwrite`
policy and for every non-empty driver-argument bundle. -/
theorem claim_C9_gs_destination_verify (a : DestinationArguments) :
    GsLocator.features.dest_if_exists = IfExistsFeatures.OVERWRITE ∧
    GsLocator.features.source_args = SourceArgumentsFeatures.empty ∧
    GsLocator.features.dest_args = DestinationArgumentsFeatures.empty ∧
    (a.if_exists ≠ IfExists.overwrite → (a.verify GsLocator.features).isOk = false) ∧
    (a.driver_args.is_empty = false → (a.verify GsLocator.features).isOk = false) := by
  refine ⟨rfl, rfl, rfl, ?_, ?_⟩
  · intro hne
    cases a with
    | mk da ie =>
      cases ie <;> cases hda : da.is_empty <;>
        simp_all [DestinationArguments.verify, GsLocator.features, IfExists.verify,
          IfExistsFeatures.OVERWRITE, DestinationArgumentsFeatures.empty,
          Except.isOk, Except.toBool]
  · intro hda
    cases a with
    | mk da ie =>
      cases ie <;>
        simp_all [DestinationArguments.verify, GsLocator.features, IfExists.verify,
          IfExistsFeatures.OVERWRITE, DestinationArgumentsFeatures.empty,
          Except.isOk, Except.toBool]

/-- C4 counterexample: `GsLocator::from_str` accepts the string
`gs:/foo/?x`, which neither begins with `gs://` nor ends with `/`: the
URL parser reads it with path `/foo/` and query `x`, and `from_str` checks
only the parsed path. So acceptance is not exactly "begins with `gs://`
and ends with `/`". -/
theorem claim_C4_from_str_counterexample :
    (GsLocator.from_str "gs:/foo/?x").isOk = true ∧
    strStartsWith "gs:/foo/?x" "gs://" = false ∧
    strEndsWith "gs:/foo/?x" "/" = false := by decide

/-- C4 amended: `GsLocator::from_str` succeeds exactly on strings that
begin with `gs:` and parse as URLs whose path component begins with `/`
and ends with `/`; every rejection carries an error embedding the
offending URL or input string. -/
theorem claim_C4_from_str_amended (s : String) :
    ((GsLocator.from_str s).isOk = true ↔
      (strStartsWith s GS_SCHEME = true ∧
       ∃ u, Url.parse s = .ok u ∧
         strStartsWith u.path "/" = true ∧ strEndsWith u.path "/" = true)) ∧
    (∀ e, GsLocator.from_str s = .error e →
      e = "expected " ++ s ++ " to begin with gs://" ∨
      e = "cannot parse " ++ s ∨
      ∃ u, Url.parse s = .ok u ∧
        (e = u.toString ++ " must start with gs://" ∨
         e = u.toString ++ " must end with a '/'")) := by
  by_cases hs : strStartsWith s GS_SCHEME = true
  · cases hp : Url.parse s with
    | error pe =>
      simp [GsLocator.from_str, hs, hp, Except.isOk, Except.toBool]
    | ok u =>
      by_cases h1 : strStartsWith u.path "/" = true
      · by_cases h2 : strEndsWith u.path "/" = true
        · simp [GsLocator.from_str, hs, hp, h1, h2, Except.isOk, Except.toBool]
        · simp [GsLocator.from_str, hs, hp, h1, h2, Except.isOk, Except.toBool]
      · simp [GsLocator.from_str, hs, hp, h1, Except.isOk, Except.toBool]
  · simp [GsLocator.from_str, hs, Except.isOk, Except.toBool]

/-- The per-column check always returns the boolean `columnImportable`. -/
lemma column_check_ok (c : Column) :
    c.bigquery_can_import_from_csv = .ok (columnImportable c) := by
  cases hdt : c.data_type <;>
    simp [Column.bigquery_can_import_from_csv, columnImportable, hdt]

/-- The table-level loop computes the conjunction of the column flags. -/
lemma canImportFromCsvLoop_eq (cols : List Column) :
    canImportFromCsvLoop cols = .ok (cols.all columnImportable) := by
  induction cols with
  | nil => rfl
  | cons c rest ih =>
    rw [canImportFromCsvLoop, column_check_ok]
    cases hb : columnImportable c <;> simp [hb, ih]

/-- Replacing any column by a non-importable one drives the loop to
`Ok(false)`. -/
lemma canImportFromCsvLoop_set_false (cols : List Column) :
    ∀ (i : Nat) (c2 : Column), i < cols.length →
      c2.bigquery_can_import_from_csv = .ok false →
      canImportFromCsvLoop (cols.set i c2) = .ok false := by
  induction cols with
  | nil =>
    intro i c2 hi _
    exact absurd hi (Nat.not_lt_zero i)
  | cons c rest ih =>
    intro i c2 hi hc
    cases i with
    | zero =>
      rw [List.set_cons_zero, canImportFromCsvLoop, hc]
      simp
    | succ j =>
      rw [List.set_cons_succ, canImportFromCsvLoop, column_check_ok]
      cases hb : columnImportable c with
      | false => simp
      | true =>
        simp only [Bool.not_true, if_neg]
        simpa using ih j c2 (Nat.lt_of_succ_lt_succ hi) hc

/-- C6: when every per-column importability check succeeds, the table
check returns the conjunction of the column flags, and replacing any one
column by a non-importable one makes the table-level result false. -/
theorem claim_C6_table_csv_importability (t : Table)
    (h : ∀ c ∈ t.columns, ∃ b, c.bigquery_can_import_from_csv = .ok b) :
    t.bigquery_can_import_from_csv = .ok (t.columns.all columnImportable) ∧
    (∀ (i : Nat) (c2 : Column), i < t.columns.length →
      c2.bigquery_can_import_from_csv = .ok false →
      Table.bigquery_can_import_from_csv { t with columns := t.columns.set i c2 } =
        .ok false) := by
  refine ⟨canImportFromCsvLoop_eq t.columns, ?_⟩
  intro i c2 hi hc
  exact canImportFromCsvLoop_set_false t.columns i c2 hi hc

/-- C6 witness: the importability theorem at a concrete two-column table,
one text column and one array column. -/
theorem claim_C6_table_csv_importability_witness :
    Table.bigquery_can_import_from_csv
        { name := none,
          columns := [Column.mk "a" DataType.text false none,
                      Column.mk "b" (DataType.arrayOf DataType.int64) false none] } =
      .ok (List.all
        [Column.mk "a" DataType.text false none,
         Column.mk "b" (DataType.arrayOf DataType.int64) false none] columnImportable) ∧
    (∀ (i : Nat) (c2 : Column),
      i < [Column.mk "a" DataType.text false none,
           Column.mk "b" (DataType.arrayOf DataType.int64) false none].length →
      c2.bigquery_can_import_from_csv = .ok false →
      Table.bigquery_can_import_from_csv
          { name := none,
            columns := [Column.mk "a" DataType.text false none,
                        Column.mk "b" (DataType.arrayOf DataType.int64) false none].set i c2 } =
        .ok false) :=
  claim_C6_table_csv_importability
    { name := none,
      columns := [Column.mk "a" DataType.text false none,
                  Column.mk "b" (DataType.arrayOf DataType.int64) false none] }
    (fun c _ => ⟨columnImportable c, column_check_ok c⟩)

/-- The UDF loop appends each required UDF once, in column order. -/
lemma writeUdfs_eq (cols : List BqColumn) :
    ∀ (acc : String) (i : Nat),
      writeUdfs acc cols i = acc ++ concatAll (cols.map fun c => c.udf.getD "") := by
  induction cols with
  | nil =>
    intro acc i
    simp [writeUdfs, concatAll, String.append_empty]
  | cons c rest ih =>
    intro acc i
    cases h : c.udf <;>
      simp [writeUdfs, ih, concatAll, BqColumn.write_import_udf, h,
        String.append_assoc, String.append_empty, String.empty_append]

/-- Past the first column, the select loop prepends a comma to every
expression. -/
lemma writeSelectExprs_pos (cols : List BqColumn) :
    ∀ (acc : String) (i : Nat), 0 < i →
      writeSelectExprs acc cols i =
        acc ++ concatAll (cols.map fun c => "," ++ c.coercion_expr) := by
  induction cols with
  | nil =>
    intro acc i _
    simp [writeSelectExprs, concatAll, String.append_empty]
  | cons c rest ih =>
    intro acc i hi
    rw [writeSelectExprs, if_pos hi, ih _ (i + 1) (Nat.succ_pos i)]
    simp [BqColumn.write_import_select_expr, concatAll, String.append_assoc]

/-- `commaSeparated` as head plus comma-prefixed tail. -/
lemma commaSeparated_cons (e : String) (es : List String) :
    commaSeparated (e :: es) = e ++ concatAll (es.map fun s => "," ++ s) := by
  induction es generalizing e with
  | nil => simp [commaSeparated, concatAll, String.append_empty]
  | cons f rest ih =>
    rw [commaSeparated, ih f]
    simp [concatAll, String.append_assoc]

/-- C7: `write_import_sql` emits, in order, the coercion UDF of each
column that requires one (once per such column, in column order), then a
single SELECT clause projecting each column through its coercion
expression, comma-separated in column order, then ` FROM ` and the quoted
temp table name. -/
theorem claim_C7_write_import_sql (t : BqTable) :
    t.write_import_sql =
      concatAll (t.columns.map fun c => c.udf.getD "") ++ "SELECT " ++
      commaSeparated (t.columns.map BqColumn.coercion_expr) ++
      " FROM " ++ Ident t.name.dotted := by
  cases t with
  | mk name cols =>
    cases cols with
    | nil =>
      simp [BqTable.write_import_sql, writeUdfs, writeSelectExprs, concatAll,
        commaSeparated, String.append_empty, String.empty_append, String.append_assoc]
    | cons c rest =>
      rw [BqTable.write_import_sql]
      rw [writeUdfs_eq _ "" 0]
      rw [writeSelectExprs, if_neg (Nat.lt_irrefl 0),
        writeSelectExprs_pos rest _ 1 Nat.one_pos]
      simp [BqColumn.write_import_select_expr, commaSeparated_cons,
        String.empty_append, String.append_assoc, Function.comp_def]

/-- C10: the source bundle built by `SourceArguments::for_temporary`
verifies successfully against every `Features` value, and
`SharedArguments::verify` succeeds for every bundle and every `Features`
value. -/
theorem claim_C10_temporary_leg_verifies (f : Features) (sh : SharedArguments) :
    SourceArguments.for_temporary.verify f = .ok SourceArguments.for_temporary ∧
    sh.verify f = .ok sh := by
  constructor
  · simp [SourceArguments.for_temporary, SourceArguments.new, SourceArguments.verify,
      DriverArguments.default, DriverArguments.is_empty]
  · cases sh
    rfl

end Dbcrossbar
